import Mathlib

/-!
Shallow embedding of the w1r3 continuous storage benchmark
(src/w1r3/cpp/w1r3.cc) and verification of its specification.

The embedding models:
- the three histogram boundary generators (pure list computations;
  each boundary value is carried as an exact scaled integer: the
  latency generator works in integer milliseconds and emits the double
  boundary / 1000 seconds, the cpu generator works in units of 1/8 and
  the memory generator in units of 1/16, so that the lists below equal
  the emitted double sequences up to those fixed positive scale
  factors, exactly and order preserving),
- the usage sampler record function over exact rational values,
- the two upload strategies (single-shot insert_object and resumable
  write_object) with the transport abstracted as a parametrized
  status / stream model,
- the per-iteration operation executor and the worker loop as a pure
  function producing a trace of events (span starts and ends, span
  error statuses, transport calls and metric records), parametrized by
  the outcome of every transport call.
-/

set_option maxRecDepth 100000

/-- Boolean strict increase of an integer list, used because it
reduces well inside the kernel. -/
def strictIncrB : List Int → Bool
  | [] => true
  | [_] => true
  | a :: b :: rest => decide (a < b) && strictIncrB (b :: rest)

/-- Second loop of make_latency_histogram_boundaries. The C++ loop is
`for (int i = 0; i != 150 && boundary <= 300s; ++i)` with body:
push boundary; if (i != 0 && i % 10 == 0) increment *= 2;
boundary += increment. `boundary` and `increment` are integer counts
of milliseconds; the program pushes the double boundary / 1000
(seconds), which this model represents by the exact millisecond count.
Fuel starts at 150 so that fuel = 0 is exactly the i = 150 exit. -/
def latencyPhase2 : Nat → Nat → Int → Int → List Int
  | 0, _, _, _ => []
  | fuel + 1, i, boundary, increment =>
    if boundary ≤ 300000 then
      let inc2 := if i ≠ 0 ∧ i % 10 = 0 then increment * 2 else increment
      boundary :: latencyPhase2 fuel (i + 1) (boundary + inc2) inc2
    else []

/-- make_latency_histogram_boundaries from the source, in integer
milliseconds: 50 buckets of 2 ms each starting at 0, then the second
loop starting at boundary 100 ms with increment 10 ms. The emitted
double sequence is this list divided pointwise by 1000. -/
def make_latency_histogram_boundaries : List Int :=
  ((List.range 50).map fun i => 2 * (i : Int)) ++ latencyPhase2 150 0 100 10

/-- Loop of make_cpu_histogram_boundaries, in units of 1/8: push
boundary; if (i != 0 && i % 32 == 0) increment *= 2;
boundary += increment. Every value the C++ code produces is an exact
multiple of 1/8 and double arithmetic on them is exact. -/
def cpuLoop : Nat → Nat → Int → Int → List Int
  | 0, _, _, _ => []
  | fuel + 1, i, boundary, increment =>
    let inc2 := if i ≠ 0 ∧ i % 32 = 0 then increment * 2 else increment
    boundary :: cpuLoop fuel (i + 1) (boundary + inc2) inc2

/-- make_cpu_histogram_boundaries from the source: 200 iterations,
boundary starts at 0, increment starts at 1/8 (that is 1 in units of
1/8). The emitted double sequence is this list divided pointwise
by 8. -/
def make_cpu_histogram_boundaries : List Int :=
  cpuLoop 200 0 0 1

/-- Loop of make_memory_histogram_boundaries, in units of 1/16. Note
the statement order differs from the cpu loop: push boundary;
boundary += increment; if (i != 0 && i % 16 == 0) increment *= 2. The
increment added at iteration i is the one from before the doubling
check of iteration i. -/
def memLoop : Nat → Nat → Int → Int → List Int
  | 0, _, _, _ => []
  | fuel + 1, i, boundary, increment =>
    let inc2 := if i ≠ 0 ∧ i % 16 = 0 then increment * 2 else increment
    boundary :: memLoop fuel (i + 1) (boundary + increment) inc2

/-- make_memory_histogram_boundaries from the source: 200 iterations,
boundary starts at 0, increment starts at 1/16 (that is 1 in units of
1/16). The emitted double sequence is this list divided pointwise
by 16. -/
def make_memory_histogram_boundaries : List Int :=
  memLoop 200 0 0 1

/-- Modelled from the claim wording of C4, in integer milliseconds:
2 ms steps from 0 up to 100 ms (50 buckets), followed by a second
phase starting at 100 ms whose steps start at 10 ms and double every
10 buckets, truncated to at most 150 additional buckets and stopping
as soon as the boundary exceeds 300 s = 300000 ms. The second phase is
written in closed form: the 149 step values 10 * 2 ^ (j / 10) ms
accumulated from 100 ms, then truncated. -/
def latencyClaimC4 : List Int :=
  ((List.range 50).map fun i => 2 * (i : Int)) ++
    ((((List.range 149).map fun j => (10 * 2 ^ (j / 10) : Int)).scanl (· + ·)
          (100 : Int)).takeWhile fun b => decide (b ≤ 300000))

/-- Modelled from the claim wording of C5 for the cpu histogram, in
units of 1/8: 200 values accumulated from 0 with step
(1/8) * 2 ^ (j / 32), that is an initial step of 1/8 doubling every 32
buckets. -/
def cpuClaimC5 : List Int :=
  ((List.range 199).map fun j => (2 ^ (j / 32) : Int)).scanl (· + ·) 0

/-- Modelled from the claim wording of C5 for the memory histogram, in
units of 1/16: 200 values accumulated from 0 with step
(1/16) * 2 ^ (j / 16), that is an initial step of 1/16 doubling every
16 buckets. -/
def memoryClaimC5 : List Int :=
  ((List.range 199).map fun j => (2 ^ (j / 16) : Int)).scanl (· + ·) 0

/-- The memory sequence the code actually produces, in closed form and
units of 1/16: because the doubling check runs after the boundary
update, the step doubling that is triggered at iteration 16k only
takes effect from the following gap, so gap j uses
(1/16) * 2 ^ ((j - 1) / 16) (natural subtraction; gap 0 uses 1/16). -/
def memoryAmendedC5 : List Int :=
  ((List.range 199).map fun j => (2 ^ ((j - 1) / 16) : Int)).scanl (· + ·) 0

/-- C3 counterexample: every latency boundary is strictly below
300 s = 300000 ms, so the latency sequence does not contain a boundary
value of at least 300 seconds. The second generation loop only emits a
boundary while it is at most 300 s, and the boundary values skip from
286.72 s to 307.2 s. -/
theorem c3_latency_never_reaches_300 :
    (make_latency_histogram_boundaries.all fun b => decide (b < 300000)) = true := by
  decide

/-- C3 amended: each of the three histogram boundary generators
returns a finite, strictly increasing sequence of length at most 200,
and the largest latency boundary is 286720 ms = 286.72 s, strictly
below 300 s. -/
theorem c3_boundaries_amended :
    make_latency_histogram_boundaries.length ≤ 200 ∧
      make_cpu_histogram_boundaries.length ≤ 200 ∧
      make_memory_histogram_boundaries.length ≤ 200 ∧
      strictIncrB make_latency_histogram_boundaries = true ∧
      strictIncrB make_cpu_histogram_boundaries = true ∧
      strictIncrB make_memory_histogram_boundaries = true ∧
      make_latency_histogram_boundaries.foldr max 0 = 286720 ∧
      (286720 : Int) ∈ make_latency_histogram_boundaries := by
  refine ⟨by decide, by decide, by decide, by decide, by decide, by decide, by decide, by decide⟩

/-- C4: the latency boundary generator emits, in order, 2 ms steps
from 0 up to 100 ms (50 buckets), followed by boundaries starting at
100 ms whose steps start at 10 ms and double every 10 buckets,
truncated to at most 150 additional buckets and stopping as soon as
the boundary exceeds 300 s. -/
theorem c4_latency_schedule :
    make_latency_histogram_boundaries = latencyClaimC4 := by
  decide

/-- C5 counterexample: the memory boundary sequence does not follow a
step that doubles every 16 buckets: the value at index 17 would then
be 18/16 = 9/8, but the code produces 17/16, because the doubling of
the increment only takes effect one bucket late. Values are in units
of 1/16. -/
theorem c5_memory_off_by_one :
    make_memory_histogram_boundaries.get? 17 = some 17 ∧
      memoryClaimC5.get? 17 = some 18 := by
  decide

/-- C5 amended: the cpu generator returns exactly the 200 values that
start at 0 with an initial step of 1/8 doubling every 32 buckets; the
memory generator returns exactly the 200 values that start at 0 with
an initial step of 1/16 whose doubling, triggered after every 16th
bucket, takes effect one bucket later (gap j is
(1/16) * 2 ^ ((j - 1) / 16)). Both are fixed lists, hence the same
sequence on every invocation. -/
theorem c5_boundaries_amended :
    make_cpu_histogram_boundaries = cpuClaimC5 ∧
      make_memory_histogram_boundaries = memoryAmendedC5 := by
  exact ⟨by decide, by decide⟩

/-- A point-in-time capture taken by the usage constructor: the value
of the process-wide allocated_bytes counter (a uint64), the monotonic
steady clock reading in nanoseconds, and the cumulative process CPU
time in nanoseconds. -/
structure UsageSnapshot where
  mem : Nat
  clock : Int
  cpu : Int

/-- The scale lambda inside usage::record: when object_size is zero
the value is returned unscaled, otherwise it is divided by
object_size. Double arithmetic is modelled by exact rationals. -/
def usageScale (object_size : Nat) (value : ℚ) : ℚ :=
  if object_size = 0 then value else value / object_size

/-- usage::record as a pure function from the start snapshot (the
fields of the usage object), the end snapshot (the counters read
inside record) and object_size to the three recorded values, in
order: the latency value in seconds, the cpu value and the memory
value. The memory delta is a uint64 subtraction, hence the mod 2^64;
the latency value is the elapsed nanoseconds converted to seconds and
is never scaled. -/
def usage_record (s e : UsageSnapshot) (object_size : Nat) : ℚ × ℚ × ℚ :=
  let cpu_usage : Int := e.cpu - s.cpu
  let elapsed : Int := e.clock - s.clock
  let mem_usage : Nat := (e.mem + 2 ^ 64 - s.mem) % 2 ^ 64
  ((elapsed : ℚ) / 1000000000,
    usageScale object_size (cpu_usage : ℚ),
    usageScale object_size (mem_usage : ℚ))

/-- C6: for snapshots bracketing an operation (the counter does not
decrease and stays below 2^64), the recorded cpu and memory values
equal the raw deltas when object_size is zero and the raw deltas
divided by object_size when it is positive, while the recorded
latency value is always the elapsed time in seconds, never divided by
object_size. -/
theorem c6_usage_record_scaling (s e : UsageSnapshot) (object_size : Nat)
    (hmem : s.mem ≤ e.mem) (hlt : e.mem < 2 ^ 64) :
    (usage_record s e object_size).1 = ((e.clock - s.clock : Int) : ℚ) / 1000000000 ∧
      (object_size = 0 →
        (usage_record s e object_size).2.1 = ((e.cpu - s.cpu : Int) : ℚ) ∧
          (usage_record s e object_size).2.2 = ((e.mem - s.mem : Nat) : ℚ)) ∧
      (0 < object_size →
        (usage_record s e object_size).2.1 = ((e.cpu - s.cpu : Int) : ℚ) / object_size ∧
          (usage_record s e object_size).2.2 = ((e.mem - s.mem : Nat) : ℚ) / object_size) := by
  have hdelta : (e.mem + 18446744073709551616 - s.mem) % 18446744073709551616 =
      e.mem - s.mem := by
    omega
  refine ⟨rfl, fun h0 => ?_, fun hpos => ?_⟩
  · simp [usage_record, usageScale, h0, hdelta]
  · simp [usage_record, usageScale, hpos.ne', hdelta]

/-- Witness for C6 at concrete snapshots with object_size 10. -/
theorem c6_usage_record_scaling_witness :
    (usage_record ⟨100, 0, 0⟩ ⟨300, 2000000000, 50⟩ 10).1 =
        ((2000000000 - 0 : Int) : ℚ) / 1000000000 ∧
      (usage_record ⟨100, 0, 0⟩ ⟨300, 2000000000, 50⟩ 10).2.1 =
        ((50 - 0 : Int) : ℚ) / 10 ∧
      (usage_record ⟨100, 0, 0⟩ ⟨300, 2000000000, 50⟩ 10).2.2 =
        ((300 - 100 : Nat) : ℚ) / 10 := by
  have h := c6_usage_record_scaling ⟨100, 0, 0⟩ ⟨300, 2000000000, 50⟩ 10
    (by decide) (by norm_num)
  exact ⟨h.1, (h.2.2 (by decide)).1, (h.2.2 (by decide)).2⟩

/-- Status of a storage operation, abstracting google::cloud::Status:
only whether it is ok, an invalid argument error, or some other
failure matters to the benchmark logic. -/
inductive StatusCode
  | ok
  | invalidArgument
  | unavailable
deriving DecidableEq, Repr

/-- insert_object from the source, with the transport abstracted: the
transport parameter is the status the InsertObject call would return,
and the second component lists the sizes of the bounded writes handed
to the transport ([] means the transport was never invoked). The
source checks object_size > buffer.size() and returns an
invalid-argument status without calling InsertObject; otherwise it
performs one InsertObject of exactly object_size bytes from the
shared buffer. -/
def insert_object (transport : StatusCode) (buffer_len object_size : Nat) :
    StatusCode × List Nat :=
  if object_size > buffer_len then (.invalidArgument, [])
  else (transport, [object_size])

/-- C7: for every object_size strictly greater than the shared buffer
length the single-shot strategy returns invalid-argument and the
transport sees no write; for every object_size at most the buffer
length it performs exactly one bounded write of object_size bytes and
returns the transport status. -/
theorem c7_insert_object_bounds (transport : StatusCode) (buffer_len object_size : Nat) :
    (buffer_len < object_size →
      insert_object transport buffer_len object_size = (.invalidArgument, [])) ∧
      (object_size ≤ buffer_len →
        insert_object transport buffer_len object_size = (transport, [object_size])) := by
  refine ⟨fun h => ?_, fun h => ?_⟩
  · unfold insert_object
    rw [if_pos h]
  · unfold insert_object
    rw [if_neg (by omega)]

/-- Witness for C7: buffer of 10 bytes, sizes 11 and 10. -/
theorem c7_insert_object_bounds_witness :
    insert_object .ok 10 11 = (.invalidArgument, []) ∧
      insert_object .ok 10 10 = (.ok, [10]) :=
  ⟨(c7_insert_object_bounds .ok 10 11).1 (by decide),
    (c7_insert_object_bounds .ok 10 10).2 (by decide)⟩

/-- The resumable upload stream, abstracted: bad k tells whether
os.bad() holds after k chunk writes, and closeStatus is the status
reported by os.metadata().status() after os.Close(). -/
structure StreamModel where
  bad : Nat → Bool
  closeStatus : StatusCode

/-- The chunk loop of write_object: while offset < object_size and
the stream is not bad, write n = min(object_size - offset,
buffer.size()) bytes and advance. Returns the list of chunk sizes
written. Fuel object_size + 1 is enough because every executed write
advances offset by at least one byte whenever buffer_len is at least
one; the benchmark guarantees this by sizing the shared buffer to the
largest configured object size (with buffer_len = 0 and a positive
object_size the C++ loop would not terminate at all, which the model
truncates instead). -/
def write_loop (bad : Nat → Bool) (buffer_len object_size : Nat) :
    Nat → Nat → Nat → List Nat
  | 0, _, _ => []
  | fuel + 1, offset, k =>
    if offset < object_size ∧ bad k = false then
      let n := min (object_size - offset) buffer_len
      n :: write_loop bad buffer_len object_size fuel (offset + n) (k + 1)
    else []

/-- write_object from the source: open the stream, run the chunk
loop from offset 0, close, and report the metadata status. -/
def write_object (st : StreamModel) (buffer_len object_size : Nat) :
    StatusCode × List Nat :=
  (st.closeStatus, write_loop st.bad buffer_len object_size (object_size + 1) 0 0)

/-- C8: for object_size = 0 the resumable strategy writes no chunk at
all, and it completes without error whenever closing the empty upload
succeeds (its status is exactly the close status). -/
theorem c8_write_object_empty (st : StreamModel) (buffer_len : Nat) :
    (write_object st buffer_len 0).2 = [] ∧
      (write_object st buffer_len 0).1 = st.closeStatus ∧
      (st.closeStatus = .ok → (write_object st buffer_len 0).1 = .ok) := by
  refine ⟨rfl, rfl, fun h => h⟩

/-- Witness for C8 at a concrete healthy stream. -/
theorem c8_write_object_empty_witness :
    (write_object ⟨fun _ => false, .ok⟩ 4 0).2 = [] ∧
      (write_object ⟨fun _ => false, .ok⟩ 4 0).1 = .ok := by
  have h := c8_write_object_empty ⟨fun _ => false, .ok⟩ 4
  exact ⟨h.1, h.2.2 rfl⟩

/-- The spans the worker opens: the iteration level span, the upload
span, and one download span per read. -/
inductive SpanKind
  | iter
  | upload
  | download (idx : Nat)
deriving DecidableEq, Repr

/-- The transport calls one iteration issues: the upload (through the
selected uploader), the three streaming reads, and the delete. -/
inductive CallKind
  | upload
  | read (idx : Nat)
  | delete
deriving DecidableEq, Repr

/-- The three histograms of the config. -/
inductive HistKind
  | latency
  | cpu
  | memory
deriving DecidableEq, Repr

/-- An opentelemetry attribute value: the benchmark only uses string
and int64 values. -/
inductive AttrVal
  | str (s : String)
  | int (n : Int)
deriving DecidableEq, Repr

/-- An attribute list as built by common_attributes and with_op. -/
abbrev Attrs := List (String × AttrVal)

/-- One observable event of a worker run: opening a span, issuing a
transport call, setting an error status on a span, recording a metric
sample tagged with an attribute set, or ending a span. The measured
values themselves come from ambient clocks and counters and are
abstracted away; usage_record above models how they are computed. -/
inductive Ev
  | spanStart (s : SpanKind)
  | call (c : CallKind)
  | spanError (s : SpanKind)
  | record (h : HistKind) (attrs : Attrs)
  | spanEnd (s : SpanKind)
deriving DecidableEq, Repr

/-- The immutable benchmark config shared by all workers. Client
handles and uploader functions are keyed by name in the source map;
only the names are observable in the trace, so the model keeps the
name lists (map iteration order is the sorted key order, irrelevant
here because the claims below use singleton or abstract collections).
The field instance_id is called instance in the source; the version
strings are the compile-time constants captured by
common_attributes. -/
structure Config where
  clients : List String
  uploaders : List String
  object_sizes : List Nat
  bucket_name : String
  deployment : String
  instance_id : String
  region : String
  iterations : Nat
  sdk_version : String
  grpc_version : String
  protobuf_version : String
  curl_version : String
  benchmark_version : String

/-- common_attributes from the worker body, in source order. -/
def common_attributes (cfg : Config) (object_size : Nat) (transport : String) : Attrs :=
  [("ssb.language", .str "cpp"),
    ("ssb.object-size", .int object_size),
    ("ssb.transport", .str transport),
    ("ssb.deployment", .str cfg.deployment),
    ("ssb.instance", .str cfg.instance_id),
    ("ssb.region", .str cfg.region),
    ("ssb.version", .str cfg.benchmark_version),
    ("ssb.version.sdk", .str cfg.sdk_version),
    ("ssb.version.grpc", .str cfg.grpc_version),
    ("ssb.version.protobuf", .str cfg.protobuf_version),
    ("ssb.version.http-client", .str cfg.curl_version)]

/-- with_op from the worker body: copy the common attributes and
append ssb.op and ssb.transfer.type, the latter DOWNLOAD exactly when
the operation name starts with READ. -/
def with_op (common : Attrs) (op : String) : Attrs :=
  common ++ [("ssb.op", .str op),
    ("ssb.transfer.type", .str (if op.startsWith "READ" then "DOWNLOAD" else "UPLOAD"))]

/-- usage::record as seen in the trace: record a latency, a cpu and a
memory sample, all tagged with the given attributes, then end the
span. -/
def recordAndEnd (attrs : Attrs) (span : SpanKind) : List Ev :=
  [.record .latency attrs, .record .cpu attrs, .record .memory attrs, .spanEnd span]

/-- Outcome of the transport calls of one iteration: whether the
upload call returns an ok status and whether read number idx does.
The delete outcome has no field because the source discards it with a
(void) cast, so no observable behavior depends on it. -/
structure World where
  uploadOk : Bool
  readOk : Nat → Bool

/-- One body of the download for loop: start the download span, issue
the read; on a non-ok status set the error status on the download
span, end it and continue with the next read, otherwise record the
three samples (which ends the span). -/
def downloadTrace (common : Attrs) (w : World) (idx : Nat) (op : String) : List Ev :=
  let attrs := with_op common op
  [.spanStart (.download idx), .call (.read idx)] ++
    (if w.readOk idx then recordAndEnd attrs (.download idx)
     else [.spanError (.download idx), .spanEnd (.download idx)])

/-- One iteration of the worker loop: open the iteration span, open
the upload span and invoke the selected uploader; on a non-ok status
set the error status on the upload span, end it and continue with the
next iteration (so nothing else of this iteration happens); on
success record the upload samples, run the three downloads, issue the
delete and finally end the iteration span. The source deletes before
ending the iteration span, which the event order below preserves. -/
def iterationTrace (cfg : Config) (w : World) (object_size : Nat)
    (transport uploader_name : String) : List Ev :=
  let common := common_attributes cfg object_size transport
  let upload_attributes := with_op common uploader_name
  [.spanStart .iter, .spanStart .upload, .call .upload] ++
    (if w.uploadOk then
      recordAndEnd upload_attributes .upload ++
        ([(0, "READ[0]"), (1, "READ[1]"), (2, "READ[2]")].flatMap fun p =>
          downloadTrace common w p.1 p.2) ++
        [.call .delete, .spanEnd .iter]
    else [.spanError .upload, .spanEnd .upload])

/-- The worker loop: cfg.iterations iterations, each picking an
object size, a client and an uploader from the configured collections
with the worker local PRNG (pick_one draws an index into each
collection; the model takes the raw draws through picks and reduces
them to valid indices, which covers every possible pick), and running
one iteration against the outcomes world i. The freshly generated
uuid object name is not observable in the events. -/
def worker (cfg : Config) (picks : Nat → Nat × Nat × Nat) (world : Nat → World) : List Ev :=
  (List.range cfg.iterations).flatMap fun i =>
    iterationTrace cfg (world i)
      (cfg.object_sizes.getD ((picks i).1 % cfg.object_sizes.length) 0)
      (cfg.clients.getD ((picks i).2.1 % cfg.clients.length) "")
      (cfg.uploaders.getD ((picks i).2.2 % cfg.uploaders.length) "")

/-- The transport calls of a trace, in order. -/
def callsOf (tr : List Ev) : List CallKind :=
  tr.filterMap fun e => match e with
    | .call c => some c
    | _ => none

/-- The metric records of a trace, in order, with their attributes. -/
def recordsOf (tr : List Ev) : List (HistKind × Attrs) :=
  tr.filterMap fun e => match e with
    | .record h a => some (h, a)
    | _ => none

/-- The spans that get an error status set, in order. -/
def errorsOf (tr : List Ev) : List SpanKind :=
  tr.filterMap fun e => match e with
    | .spanError s => some s
    | _ => none

/-- The spans that are ended, in order. -/
def endsOf (tr : List Ev) : List SpanKind :=
  tr.filterMap fun e => match e with
    | .spanEnd s => some s
    | _ => none

/-- A config with one transport, one uploader, one object size and
iteration count 1, with concrete labels. -/
def cfgOne : Config :=
  ⟨["JSON"], ["SINGLE-SHOT"], [1000], "bucket", "development", "instance-0",
    "us-central1", 1, "sdk", "grpc", "protobuf", "curl", "1.2.0"⟩

/-- All transport calls succeed. -/
def worldAllOk : World :=
  ⟨true, fun _ => true⟩

/-- The upload fails, reads would succeed. -/
def worldUploadFail : World :=
  ⟨false, fun _ => true⟩

/-- The upload succeeds and the first read fails. -/
def worldReadFail : World :=
  ⟨true, fun j => decide (j ≠ 0)⟩

/-- Whether an event is the opening of the iteration level span. -/
def isIterStart : Ev → Bool
  | .spanStart .iter => true
  | _ => false

/-- Every iteration body opens exactly one iteration level span,
whatever the outcomes are. -/
theorem iterationTrace_iterStart_count (cfg : Config) (w : World) (object_size : Nat)
    (transport uploader_name : String) :
    (iterationTrace cfg w object_size transport uploader_name).countP isIterStart = 1 := by
  cases hu : w.uploadOk <;>
    cases h0 : w.readOk 0 <;> cases h1 : w.readOk 1 <;> cases h2 : w.readOk 2 <;>
      simp [iterationTrace, downloadTrace, recordAndEnd, isIterStart, hu, h0, h1, h2,
        List.countP_cons, List.countP_append]

/-- The worker loop opens exactly cfg.iterations iteration spans: a
failed iteration never terminates the worker. -/
theorem worker_iterStart_count (cfg : Config) (picks : Nat → Nat × Nat × Nat)
    (world : Nat → World) :
    (worker cfg picks world).countP isIterStart = cfg.iterations := by
  unfold worker
  generalize cfg.iterations = n
  induction n with
  | zero => simp
  | succ n ih =>
    rw [List.range_succ, List.flatMap_append, List.countP_append, ih, List.flatMap_cons,
      List.flatMap_nil, List.append_nil, iterationTrace_iterStart_count]

/-- C1 counterexample: in a one iteration run where the upload
succeeds and the first download fails, the worker still issues the
two remaining reads and the delete call, so a DOWNLOADING failure
does not abort the remainder of the iteration and does not suppress
the delete. -/
theorem c1_download_failure_still_deletes :
    callsOf (worker cfgOne (fun _ => (0, 0, 0)) (fun _ => worldReadFail)) =
        [.upload, .read 0, .read 1, .read 2, .delete] ∧
      Ev.spanError (.download 0) ∈ worker cfgOne (fun _ => (0, 0, 0)) (fun _ => worldReadFail) ∧
      Ev.call .delete ∈ worker cfgOne (fun _ => (0, 0, 0)) (fun _ => worldReadFail) := by
  refine ⟨by decide, by decide, by decide⟩

/-- C1 amended: on an UPLOADING failure the executor records the
failure status on the upload span, closes it, and aborts the
remainder of the iteration without reads or delete, and the worker
goes on to run every one of its cfg.iterations iterations; on a
DOWNLOADING failure the executor records the failure status on that
download span and closes it, and only that read loses its metric
records (the record count is three per successful operation), while
the remaining reads and the delete call still happen. -/
theorem c1_failure_handling_amended (cfg : Config) (picks : Nat → Nat × Nat × Nat)
    (world : Nat → World) (w : World) (object_size : Nat)
    (transport uploader_name : String) :
    (w.uploadOk = false →
        iterationTrace cfg w object_size transport uploader_name =
          [.spanStart .iter, .spanStart .upload, .call .upload, .spanError .upload,
            .spanEnd .upload]) ∧
      (w.uploadOk = true →
        callsOf (iterationTrace cfg w object_size transport uploader_name) =
            [.upload, .read 0, .read 1, .read 2, .delete] ∧
          (recordsOf (iterationTrace cfg w object_size transport uploader_name)).length =
            3 * (1 + (List.range 3).countP w.readOk) ∧
          ∀ j, j < 3 → w.readOk j = false →
            Ev.spanError (.download j) ∈
                iterationTrace cfg w object_size transport uploader_name ∧
              Ev.spanEnd (.download j) ∈
                iterationTrace cfg w object_size transport uploader_name) ∧
      (worker cfg picks world).countP isIterStart = cfg.iterations := by
  refine ⟨fun h => ?_, fun h => ⟨?_, ?_, ?_⟩, worker_iterStart_count cfg picks world⟩
  · simp [iterationTrace, h]
  · cases h0 : w.readOk 0 <;> cases h1 : w.readOk 1 <;> cases h2 : w.readOk 2 <;>
      simp [iterationTrace, downloadTrace, recordAndEnd, callsOf, h, h0, h1, h2]
  · cases h0 : w.readOk 0 <;> cases h1 : w.readOk 1 <;> cases h2 : w.readOk 2 <;>
      simp [iterationTrace, downloadTrace, recordAndEnd, recordsOf, h, h0, h1, h2,
        List.range_succ, List.countP_cons, List.countP_append]
  · intro j hj hf
    interval_cases j <;>
      constructor <;>
        simp [iterationTrace, downloadTrace, recordAndEnd, h, hf]

/-- Witness for C1 amended: the upload failure trace at a concrete
config, and the errored download span of a failing first read. -/
theorem c1_failure_handling_amended_witness :
    iterationTrace cfgOne worldUploadFail 1000 "JSON" "SINGLE-SHOT" =
        [.spanStart .iter, .spanStart .upload, .call .upload, .spanError .upload,
          .spanEnd .upload] ∧
      Ev.spanError (.download 0) ∈ iterationTrace cfgOne worldReadFail 1000 "JSON" "SINGLE-SHOT" := by
  refine ⟨(c1_failure_handling_amended cfgOne (fun _ => (0, 0, 0)) (fun _ => worldUploadFail)
      worldUploadFail 1000 "JSON" "SINGLE-SHOT").1 rfl, ?_⟩
  exact (((c1_failure_handling_amended cfgOne (fun _ => (0, 0, 0)) (fun _ => worldReadFail)
      worldReadFail 1000 "JSON" "SINGLE-SHOT").2.1 rfl).2.2 0 (by decide) (by decide)).1

/-- C2: in an all-success one iteration run, restricting the trace to
the delete call and the end of the iteration span shows the delete is
issued strictly before the iteration span is closed, contrary to the
claim (and to the source comment above the DeleteObject call). The
delete outcome itself is discarded by the source with a (void) cast,
so it can never surface as an iteration failure. -/
theorem c2_delete_before_iteration_span_end :
    (worker cfgOne (fun _ => (0, 0, 0)) (fun _ => worldAllOk)).filter
        (fun e => decide (e = Ev.call .delete) || decide (e = Ev.spanEnd .iter)) =
      [Ev.call .delete, Ev.spanEnd .iter] := by
  decide

/-- A config with one transport, one uploader and one object size,
iteration count 1, free in the names the claim cares about. -/
def cfgSingle (transport uploader : String) (object_size : Nat) : Config :=
  ⟨[transport], [uploader], [object_size], "bucket", "development", "instance-0",
    "us-central1", 1, "sdk", "grpc", "protobuf", "curl", "1.2.0"⟩

/-- C9: with one transport, one uploader, one object size and
iteration count 1, an all-success run issues exactly one upload, then
three reads, then one delete, in that order; it emits exactly four
metric triples (latency, cpu, memory for the upload and for each
read, identified by their ssb.op attribute), and every record carries
the ssb.transport attribute with the configured transport name. -/
theorem c9_end_to_end (transport uploader : String) (object_size : Nat)
    (picks : Nat → Nat × Nat × Nat) :
    callsOf (worker (cfgSingle transport uploader object_size) picks (fun _ => worldAllOk)) =
        [.upload, .read 0, .read 1, .read 2, .delete] ∧
      (recordsOf (worker (cfgSingle transport uploader object_size) picks
            (fun _ => worldAllOk))).map Prod.fst =
        [.latency, .cpu, .memory, .latency, .cpu, .memory, .latency, .cpu, .memory,
          .latency, .cpu, .memory] ∧
      (recordsOf (worker (cfgSingle transport uploader object_size) picks
            (fun _ => worldAllOk))).map (fun r => r.2.lookup "ssb.op") =
        [some (.str uploader), some (.str uploader), some (.str uploader),
          some (.str "READ[0]"), some (.str "READ[0]"), some (.str "READ[0]"),
          some (.str "READ[1]"), some (.str "READ[1]"), some (.str "READ[1]"),
          some (.str "READ[2]"), some (.str "READ[2]"), some (.str "READ[2]")] ∧
      ∀ r ∈ recordsOf (worker (cfgSingle transport uploader object_size) picks
          (fun _ => worldAllOk)),
        ("ssb.transport", AttrVal.str transport) ∈ r.2 := by
  have hw : worker (cfgSingle transport uploader object_size) picks (fun _ => worldAllOk) =
      iterationTrace (cfgSingle transport uploader object_size) worldAllOk object_size
        transport uploader := by
    simp [worker, cfgSingle, Nat.mod_one, List.range_succ]
  rw [hw]
  refine ⟨?_, ?_, ?_, ?_⟩
  · simp [iterationTrace, downloadTrace, recordAndEnd, callsOf, worldAllOk]
  · simp [iterationTrace, downloadTrace, recordAndEnd, recordsOf, worldAllOk]
  · simp [iterationTrace, downloadTrace, recordAndEnd, recordsOf, worldAllOk,
      with_op, common_attributes, List.lookup]
  · intro r hr
    simp [iterationTrace, downloadTrace, recordAndEnd, recordsOf, worldAllOk] at hr
    rcases hr with h | h | h | h | h | h | h | h | h | h | h | h <;>
      subst h <;> simp [with_op, common_attributes]

/-- C10: when the upload fails the iteration level span is never
ended (only the upload span receives an error status and is ended),
and in general the iteration level span is ended exactly on the
iterations that issue the delete call. -/
theorem c10_iteration_span_end_scope (cfg : Config) (w : World) (object_size : Nat)
    (transport uploader_name : String) :
    (w.uploadOk = false →
        Ev.spanEnd .iter ∉ iterationTrace cfg w object_size transport uploader_name ∧
          errorsOf (iterationTrace cfg w object_size transport uploader_name) = [.upload] ∧
          endsOf (iterationTrace cfg w object_size transport uploader_name) = [.upload]) ∧
      (Ev.spanEnd .iter ∈ iterationTrace cfg w object_size transport uploader_name ↔
        Ev.call .delete ∈ iterationTrace cfg w object_size transport uploader_name) := by
  refine ⟨fun h => ?_, ?_⟩
  · refine ⟨?_, ?_, ?_⟩ <;> simp [iterationTrace, errorsOf, endsOf, h]
  · cases h : w.uploadOk
    · simp [iterationTrace, h]
    · constructor <;> intro _ <;> simp [iterationTrace, downloadTrace, recordAndEnd, h]

/-- Witness for C10: upload failure at a concrete config never ends
the iteration span and ends exactly the upload span. -/
theorem c10_iteration_span_end_scope_witness :
    Ev.spanEnd .iter ∉ iterationTrace cfgOne worldUploadFail 1000 "JSON" "SINGLE-SHOT" ∧
      endsOf (iterationTrace cfgOne worldUploadFail 1000 "JSON" "SINGLE-SHOT") = [.upload] := by
  have h := (c10_iteration_span_end_scope cfgOne worldUploadFail 1000 "JSON" "SINGLE-SHOT").1 rfl
  exact ⟨h.1, h.2.2⟩

/-- Witness for C9 at the concrete transport JSON, uploader
SINGLE-SHOT and object size 1000, including one concrete record whose
attributes carry the transport name. -/
theorem c9_end_to_end_witness :
    callsOf (worker (cfgSingle "JSON" "SINGLE-SHOT" 1000) (fun _ => (0, 0, 0))
          (fun _ => worldAllOk)) =
        [.upload, .read 0, .read 1, .read 2, .delete] ∧
      ("ssb.transport", AttrVal.str "JSON") ∈
        with_op (common_attributes (cfgSingle "JSON" "SINGLE-SHOT" 1000) 1000 "JSON")
          "SINGLE-SHOT" := by
  have h := c9_end_to_end "JSON" "SINGLE-SHOT" 1000 (fun _ => (0, 0, 0))
  exact ⟨h.1,
    h.2.2.2 (.latency,
      with_op (common_attributes (cfgSingle "JSON" "SINGLE-SHOT" 1000) 1000 "JSON")
        "SINGLE-SHOT")
      (by simp [recordsOf, worker, iterationTrace, downloadTrace, recordAndEnd, cfgSingle,
        worldAllOk, Nat.mod_one, List.range_succ])⟩
